import Mathlib

/-!
Shallow embedding of the chiller-plant efficiency dashboard frontend
(`src/frontend/src/components/`), covering the classification, fallback,
scenario and simulation-panel logic.  Numbers are modelled as rationals
(the JavaScript arithmetic on the relevant inputs stays exact at the
branch points of interest); colour and status strings are kept verbatim
from the source.
-/

/-- `EnhancedInsights.js` lines 62–67: colour chosen for a plant kW/TR value
on the efficiency benchmark chart. -/
def getEfficiencyColor (value : ℚ) : String :=
  if value < 0.6 then "#66FCF1"
  else if value < 0.75 then "#45A29E"
  else if value < 0.85 then "#FFA500"
  else "#FF2E63"

/-- `VirtualPlantDisplay.js` line 469: fill colour of the plant-overview
health indicator circle, from `plantKwPerTr`. -/
def plantHealthFill (plantKwPerTr : ℚ) : String :=
  if plantKwPerTr < 0.75 then "#10b981"
  else if plantKwPerTr < 0.95 then "#f59e0b"
  else "#ef4444"

/-- `VirtualPlantDisplay.js` lines 160–167: `getHealthColor(kwPerTr, type)`.
The chiller branch has three bands; any other `type` returns green. -/
def getHealthColor (kwPerTr : ℚ) (type : String) : String :=
  if type = "chiller" then
    if kwPerTr < 0.60 then "#10b981"
    else if kwPerTr < 0.75 then "#f59e0b"
    else "#ef4444"
  else "#10b981"

/-- `VirtualPlantDisplay.js` line 762: `CoolingTowerIcon` health colour from
the tower approach. -/
def towerHealthColor (approach : ℚ) : String :=
  if approach < 4 then "#10b981"
  else if approach < 6 then "#f59e0b"
  else "#ef4444"

/-- `VirtualPlantDisplay.js` line 1029: hover-card status label for the
tower approach. -/
def towerApproachStatus (approach : ℚ) : String :=
  if approach < 4 then "✅ Excellent"
  else if approach < 6 then "⚠️ Acceptable"
  else "❌ Poor"

/-- `EnhancedInsights.js` lines 70–72: current load percentage.  The source
guards the division with `currentLoad > 0 ? ... : 0`, where `currentLoad` is
`cooling_capacity_tr` and `currentPower` is `total_plant_power`. -/
def loadPercent (cooling_capacity_tr total_plant_power : ℚ) : ℚ :=
  if 0 < cooling_capacity_tr then
    total_plant_power / (cooling_capacity_tr * 3.517) * 100
  else 0

/-- `EnhancedInsights.js` lines 74–75: sequencing status from the load
percentage (`>= 65 && <= 80` is optimal, `< 65` underloaded, else
overloaded). -/
def sequencingStatus (lp : ℚ) : String :=
  if 65 ≤ lp ∧ lp ≤ 80 then "optimal"
  else if lp < 65 then "underloaded"
  else "overloaded"

/-- `EnhancedInsights.js` lines 482–496: the advisory paragraph rendered for
each sequencing status; the two non-optimal messages are the staging-change
recommendations (shut a chiller down / stage an additional chiller). -/
def sequencingMessage (status : String) : String :=
  if status = "optimal" then
    "✓ Chillers operating in optimal efficiency range. Maintain current configuration."
  else if status = "underloaded" then
    "⚠ Load below optimal range. Consider load redistribution or chiller shutdown."
  else
    "⚠ Load above optimal range. Risk of efficiency loss. Consider staging additional chiller."

/-- A staging change is recommended exactly when the rendered status is not
the optimal one (the other two branches both advise a staging change). -/
def stagingChangeRecommended (lp : ℚ) : Prop :=
  sequencingStatus lp ≠ "optimal"

instance (lp : ℚ) : Decidable (stagingChangeRecommended lp) := by
  unfold stagingChangeRecommended
  infer_instance

/-- The fields of `summaryData.current_metrics` consumed by the fallback paths
in `MetricsGrid.js`; optional fields absent from the record (JS
`undefined`/`null`, probed with `?.`) are `none`. -/
structure CurrentMetrics where
  kw_per_tr : ℚ
  plant_kw_per_tr : Option ℚ
  efficiency_status : String
  plant_efficiency_status : Option String
  total_plant_power : Option ℚ

/-- `MetricsGrid.js` line 37: `plant_kw_per_tr?.toFixed(3) || kw_per_tr.toFixed(3)`.
`toFixed` of a number is a non-empty (hence truthy) string, so the `||` falls
through exactly when `plant_kw_per_tr` is absent; modelled at value level. -/
def displayedPlantKwPerTr (m : CurrentMetrics) : ℚ :=
  m.plant_kw_per_tr.getD m.kw_per_tr

/-- `MetricsGrid.js` line 40: `plant_efficiency_status || efficiency_status`
(statuses are non-empty enum strings, so `||` falls through exactly when the
plant status is absent). -/
def displayedPlantStatus (m : CurrentMetrics) : String :=
  m.plant_efficiency_status.getD m.efficiency_status

/-- `MetricsGrid.js` line 86:
`total_plant_power?.toFixed(1) || sensor_data.chiller_power?.toFixed(1)`. -/
def displayedTotalPlantPower (m : CurrentMetrics) (chiller_power : Option ℚ) :
    Option ℚ :=
  m.total_plant_power.orElse (fun _ => chiller_power)

/-- `EnhancedInsights.js` line 27:
`total_plant_power?.toFixed(1) || chiller_power?.toFixed(1) || 0`. -/
def chartTotalPower (total_plant_power chiller_power : Option ℚ) : ℚ :=
  (total_plant_power.orElse (fun _ => chiller_power)).getD 0

/-- `EnhancedInsights.js` line 30:
`plant_kw_per_tr?.toFixed(3) || kw_per_tr?.toFixed(3) || 0`. -/
def chartPlantKwPerTr (plant_kw_per_tr kw_per_tr : Option ℚ) : ℚ :=
  (plant_kw_per_tr.orElse (fun _ => kw_per_tr)).getD 0

/-- `SimulationPanel.js` lines 16–25: the panel's simulation configuration
state.  `duration_hours` and `timestep_minutes` come from `parseInt` inputs,
the temperatures and factors from `parseFloat` inputs; there is no seed
field. -/
structure SimulationConfig where
  duration_hours : ℕ
  timestep_minutes : ℕ
  chw_supply_setpoint : ℚ
  chw_return_setpoint : ℚ
  ambient_temp_base : ℚ
  load_factor : ℚ
  include_fouling : Bool
  fouling_rate : ℚ

/-- `SimulationPanel.js` lines 16–25: the initial `useState` configuration. -/
def defaultConfig : SimulationConfig :=
  ⟨24, 5, 7.0, 12.0, 32.0, 0.75, false, 0.01⟩

/-- A scenario's partial-config patch: the fields its `overrides` object
names; everything else is `none` (not named). -/
structure ScenarioOverrides where
  duration_hours : Option ℕ
  timestep_minutes : Option ℕ
  chw_supply_setpoint : Option ℚ
  chw_return_setpoint : Option ℚ
  ambient_temp_base : Option ℚ
  load_factor : Option ℚ
  include_fouling : Option Bool
  fouling_rate : Option ℚ

/-- The empty override set (an absent `overrides` key spreads to nothing). -/
def noOverrides : ScenarioOverrides :=
  ⟨none, none, none, none, none, none, none, none⟩

/-- `SimulationPanel.js` line 213: `{ ...config, ...scenario.overrides }` —
each field named by the overrides replaces the base field, everything else is
inherited from the base config. -/
def applyOverrides (config : SimulationConfig) (o : ScenarioOverrides) :
    SimulationConfig where
  duration_hours := o.duration_hours.getD config.duration_hours
  timestep_minutes := o.timestep_minutes.getD config.timestep_minutes
  chw_supply_setpoint := o.chw_supply_setpoint.getD config.chw_supply_setpoint
  chw_return_setpoint := o.chw_return_setpoint.getD config.chw_return_setpoint
  ambient_temp_base := o.ambient_temp_base.getD config.ambient_temp_base
  load_factor := o.load_factor.getD config.load_factor
  include_fouling := o.include_fouling.getD config.include_fouling
  fouling_rate := o.fouling_rate.getD config.fouling_rate

/-- A named what-if scenario (`SimulationPanel.js` lines 66–71). -/
structure Scenario where
  name : String
  description : String
  overrides : ScenarioOverrides

/-- `SimulationPanel.js` line 67. -/
def baselineScenario : Scenario :=
  ⟨"Baseline", "Current operating conditions", noOverrides⟩

/-- `SimulationPanel.js` line 68: `overrides: { chw_supply_setpoint: 8.0 }`. -/
def highEfficiencyScenario : Scenario :=
  ⟨"High Efficiency", "Optimized setpoints",
    { noOverrides with chw_supply_setpoint := some 8 }⟩

/-- `SimulationPanel.js` line 69: `overrides: { load_factor: 1.0 }`. -/
def peakLoadScenario : Scenario :=
  ⟨"Peak Load", "Maximum load conditions",
    { noOverrides with load_factor := some 1 }⟩

/-- `SimulationPanel.js` line 70: `overrides: { ambient_temp_base: 40.0 }`. -/
def hotWeatherScenario : Scenario :=
  ⟨"Hot Weather", "High ambient temperature",
    { noOverrides with ambient_temp_base := some 40 }⟩

/-- The request body posted by `handleScenarioAnalysis`
(`SimulationPanel.js` lines 49–52). -/
structure ScenarioRequest where
  scenario_name : String
  config : SimulationConfig

/-- The observable outcome of one scenario click. -/
structure ClickResult where
  newConfig : SimulationConfig
  request : ScenarioRequest

/-- `SimulationPanel.js` lines 208–217: clicking a scenario computes
`scenarioConfig = { ...config, ...scenario.overrides }`, stores it with
`setConfig`, and calls `handleScenarioAnalysis(scenario.name)`, which posts
the `config` value captured by the current render's closure (the pre-update
state). -/
def clickScenario (config : SimulationConfig) (s : Scenario) : ClickResult where
  newConfig := applyOverrides config s.overrides
  request := ⟨s.name, config⟩

/-- Modelled from the spec: the backend `SimulationEngine`
(`backend/simulation_engine.py`) is not under `src/`.  Per the spec it
generates "a reproducible ordered sequence of SensorSnapshot values spanning
`duration_hours` at `timestep_minutes` resolution (so length =
duration_hours*60/timestep_minutes, truncated)"; each step's timestamp is its
elapsed minutes from the series start.  Natural-number division is exactly
the truncation the spec states. -/
def generateTimestamps (c : SimulationConfig) : List ℕ :=
  (List.range (c.duration_hours * 60 / c.timestep_minutes)).map
    (fun i => i * c.timestep_minutes)

/-- Modelled from the spec: the `record_count` a run reports is the length of
the generated series. -/
def recordCount (c : SimulationConfig) : ℕ :=
  (generateTimestamps c).length

/-- `SimulationPanel.js` line 242:
`scenarioResults.total_records || scenarioResults.summary?.duration_hours * 12`
(the JS `||` falls through when `total_records` is `0` or absent). -/
def displayedTotalRecords (total_records duration_hours : ℕ) : ℕ :=
  if total_records ≠ 0 then total_records else duration_hours * 12

/-- `EnhancedInsights.js` line 38:
`record.plant_kw_per_tr * (0.95 + Math.random() * 0.1)`.  The `Math.random()`
draw — ambient, unseeded — is made an explicit argument `rand`. -/
def predicted_efficiency (plant_kw_per_tr rand : ℚ) : ℚ :=
  plant_kw_per_tr * (0.95 + rand * 0.1)

/-- Claim C1 (counterexample): the claim does not hold of every classification
site.  `EnhancedInsights.js`'s `getEfficiencyColor` puts a plant kW/TR of
0.749999 in its second (good) band, not the excellent band, and the plant
overview health indicator colours exactly 0.95 with the poor colour even
though 0.95 is not above 0.95. -/
theorem plant_excellent_band_counterexample :
    getEfficiencyColor (749999/1000000) ≠ "#66FCF1" ∧
    plantHealthFill 0.95 = "#ef4444" := by
  constructor
  · have h : getEfficiencyColor (749999/1000000) = "#45A29E" := by
      norm_num [getEfficiencyColor]
    rw [h]
    decide
  · norm_num [plantHealthFill]

/-- Claim C1 (amended): the plant-overview health indicator classifies
`plant_kw_per_tr < 0.75` as excellent (so 0.749999 is excellent and exactly
0.75 is good), but its poor band starts at 0.95 inclusive; the
`EnhancedInsights` chart colour function instead uses 0.6/0.75/0.85
thresholds, under which 0.749999 receives the second (good) colour. -/
theorem plant_efficiency_band_boundaries :
    (∀ v : ℚ, plantHealthFill v = "#10b981" ↔ v < 0.75) ∧
    (∀ v : ℚ, plantHealthFill v = "#ef4444" ↔ 0.95 ≤ v) ∧
    plantHealthFill (749999/1000000) = "#10b981" ∧
    plantHealthFill 0.75 = "#f59e0b" ∧
    getEfficiencyColor (749999/1000000) = "#45A29E" := by
  refine ⟨?_, ?_, by norm_num [plantHealthFill], by norm_num [plantHealthFill],
    by norm_num [getEfficiencyColor]⟩
  · intro v
    unfold plantHealthFill
    split_ifs with h1 h2
    · simpa using h1
    · simp only [String.reduceEq, false_iff, not_lt]
      exact le_of_not_lt h1
    · simp only [String.reduceEq, false_iff, not_lt]
      exact le_of_not_lt h1
  · intro v
    unfold plantHealthFill
    split_ifs with h1 h2
    · simp only [String.reduceEq, false_iff, not_le]
      linarith
    · simp only [String.reduceEq, false_iff, not_le]
      exact h2
    · simp only [true_iff]
      exact le_of_not_lt h2

/-- Claim C3 (counterexample): an approach of exactly 6 °C is classified
poor, not acceptable — both branch points (`approach < 6`) exclude 6. -/
theorem tower_approach_boundary_counterexample :
    towerApproachStatus 6 = "❌ Poor" ∧
    towerApproachStatus 6 ≠ "⚠️ Acceptable" ∧
    towerHealthColor 6 = "#ef4444" := by
  refine ⟨?_, ?_, ?_⟩
  · norm_num [towerApproachStatus]
  · have h : towerApproachStatus 6 = "❌ Poor" := by norm_num [towerApproachStatus]
    rw [h]
    decide
  · norm_num [towerHealthColor]

/-- Claim C3 (amended): the tower classification is `approach < 4` excellent,
`4 ≤ approach < 6` acceptable/advisory, and `approach ≥ 6` — including
exactly 6 °C — poor (the fouling/maintenance indication), in both the icon
colour and the hover-card label. -/
theorem tower_approach_bands :
    (∀ a : ℚ, towerApproachStatus a = "✅ Excellent" ↔ a < 4) ∧
    (∀ a : ℚ, towerApproachStatus a = "⚠️ Acceptable" ↔ 4 ≤ a ∧ a < 6) ∧
    (∀ a : ℚ, towerApproachStatus a = "❌ Poor" ↔ 6 ≤ a) ∧
    (∀ a : ℚ, towerHealthColor a = "#ef4444" ↔ 6 ≤ a) := by
  refine ⟨?_, ?_, ?_, ?_⟩ <;> intro a
  · unfold towerApproachStatus
    split_ifs with h1 h2
    · simpa using h1
    · simp only [String.reduceEq, false_iff, not_lt]
      exact le_of_not_lt h1
    · simp only [String.reduceEq, false_iff, not_lt]
      exact le_of_not_lt h1
  · unfold towerApproachStatus
    split_ifs with h1 h2
    · simp only [String.reduceEq, false_iff]
      rintro ⟨h, -⟩
      linarith
    · simp only [true_iff]
      exact ⟨le_of_not_lt h1, h2⟩
    · simp only [String.reduceEq, false_iff]
      rintro ⟨-, h⟩
      exact h2 h
  · unfold towerApproachStatus
    split_ifs with h1 h2
    · simp only [String.reduceEq, false_iff, not_le]
      linarith
    · simp only [String.reduceEq, false_iff, not_le]
      exact h2
    · simp only [true_iff]
      exact le_of_not_lt h2
  · unfold towerHealthColor
    split_ifs with h1 h2
    · simp only [String.reduceEq, false_iff, not_le]
      linarith
    · simp only [String.reduceEq, false_iff, not_le]
      exact h2
    · simp only [true_iff]
      exact le_of_not_lt h2

/-- Claim C4 (counterexample): the chiller health classification has no
separate average band — 0.76 (which the claim places in an "average" band)
and 0.9 (which the claim places in the "poor" band) receive the very same
critical colour, so the claimed four-way partition does not exist. -/
theorem chiller_four_band_counterexample :
    getHealthColor 0.76 "chiller" = getHealthColor 0.9 "chiller" ∧
    getHealthColor 0.76 "chiller" = "#ef4444" := by
  constructor <;> norm_num [getHealthColor]

/-- Claim C4 (amended): `getHealthColor` partitions chiller kW/TR into three
bands with exclusive upper boundaries — below 0.60 excellent (green),
0.60–0.75 good (yellow), and 0.75 and above critical (red); in particular a
kW/TR of exactly 0.60 is not excellent. -/
theorem chiller_band_boundaries :
    (∀ v : ℚ, getHealthColor v "chiller" = "#10b981" ↔ v < 0.60) ∧
    (∀ v : ℚ, getHealthColor v "chiller" = "#f59e0b" ↔ 0.60 ≤ v ∧ v < 0.75) ∧
    (∀ v : ℚ, getHealthColor v "chiller" = "#ef4444" ↔ 0.75 ≤ v) ∧
    getHealthColor 0.60 "chiller" = "#f59e0b" := by
  refine ⟨?_, ?_, ?_, by norm_num [getHealthColor]⟩ <;> intro v
  · unfold getHealthColor
    split_ifs with h0 h1 h2
    · simpa using h1
    · simp only [String.reduceEq, false_iff, not_lt]
      exact le_of_not_lt h1
    · simp only [String.reduceEq, false_iff, not_lt]
      exact le_of_not_lt h1
    · exact absurd rfl h0
  · unfold getHealthColor
    split_ifs with h0 h1 h2
    · simp only [String.reduceEq, false_iff]
      rintro ⟨h, -⟩
      linarith
    · simp only [true_iff]
      exact ⟨le_of_not_lt h1, h2⟩
    · simp only [String.reduceEq, false_iff]
      rintro ⟨-, h⟩
      exact h2 h
    · exact absurd rfl h0
  · unfold getHealthColor
    split_ifs with h0 h1 h2
    · simp only [String.reduceEq, false_iff, not_le]
      linarith
    · simp only [String.reduceEq, false_iff, not_le]
      exact h2
    · simp only [true_iff]
      exact le_of_not_lt h2
    · exact absurd rfl h0

/-- Claim C5: a chiller staging change is recommended exactly when the load
percentage — `total_plant_power / (cooling_capacity_tr * 3.517) * 100`, or 0
when the capacity is not positive — falls outside the 65–80 % band; exactly
65 % and exactly 80 % are inside the band (status optimal, no staging
recommendation). -/
theorem staging_change_iff_outside_band
    (cooling_capacity_tr total_plant_power : ℚ) :
    (stagingChangeRecommended (loadPercent cooling_capacity_tr total_plant_power) ↔
      loadPercent cooling_capacity_tr total_plant_power < 65 ∨
        80 < loadPercent cooling_capacity_tr total_plant_power) ∧
    sequencingStatus 65 = "optimal" ∧ sequencingStatus 80 = "optimal" ∧
    (cooling_capacity_tr ≤ 0 →
      loadPercent cooling_capacity_tr total_plant_power = 0) := by
  refine ⟨?_, by norm_num [sequencingStatus], by norm_num [sequencingStatus], ?_⟩
  · set lp := loadPercent cooling_capacity_tr total_plant_power with hlp
    unfold stagingChangeRecommended sequencingStatus
    split_ifs with h1 h2
    · constructor
      · intro h
        exact absurd rfl h
      · rintro (h | h)
        · exact absurd h (not_lt.mpr h1.1)
        · exact absurd h (not_lt.mpr h1.2)
    · constructor
      · intro _
        exact Or.inl h2
      · intro _
        decide
    · constructor
      · intro _
        push_neg at h1
        exact Or.inr (h1 (le_of_not_lt h2))
      · intro _
        decide
  · intro h
    unfold loadPercent
    rw [if_neg (not_lt.mpr h)]

/-- Claim C5 (witness): a non-positive capacity gives a 0 load percentage,
and a load percentage of exactly 65 % is optimal. -/
theorem staging_change_witness :
    loadPercent (-1) 50 = 0 ∧ sequencingStatus 65 = "optimal" :=
  ⟨(staging_change_iff_outside_band (-1) 50).2.2.2 (by norm_num),
   (staging_change_iff_outside_band 0 0).2.1⟩

/-- Claim C6: when the auxiliary-power-derived fields are absent, the
displayed plant values fall back to the chiller-only equivalents through the
explicit `||`/`?.` paths — plant kW/TR to `kw_per_tr`, the plant status to
`efficiency_status`, and the total plant power to `chiller_power` — never to
an implicit zero. -/
theorem plant_metrics_fallback (m : CurrentMetrics) (cp : ℚ)
    (h1 : m.plant_kw_per_tr = none) (h2 : m.plant_efficiency_status = none)
    (h3 : m.total_plant_power = none) :
    displayedPlantKwPerTr m = m.kw_per_tr ∧
    displayedPlantStatus m = m.efficiency_status ∧
    displayedTotalPlantPower m (some cp) = some cp ∧
    chartTotalPower none (some cp) = cp ∧
    chartPlantKwPerTr none (some m.kw_per_tr) = m.kw_per_tr := by
  refine ⟨?_, ?_, ?_, rfl, rfl⟩
  · unfold displayedPlantKwPerTr
    rw [h1]
    rfl
  · unfold displayedPlantStatus
    rw [h2]
    rfl
  · unfold displayedTotalPlantPower
    rw [h3]
    rfl

/-- Claim C6 (witness): a concrete record lacking all plant-level fields
displays its chiller-only values. -/
theorem plant_metrics_fallback_witness :
    displayedPlantKwPerTr ⟨0.52, none, "excellent", none, none⟩ = 0.52 ∧
    displayedPlantStatus ⟨0.52, none, "excellent", none, none⟩ = "excellent" ∧
    displayedTotalPlantPower ⟨0.52, none, "excellent", none, none⟩ (some 118) =
      some 118 := by
  have h := plant_metrics_fallback ⟨0.52, none, "excellent", none, none⟩ 118
    rfl rfl rfl
  exact ⟨h.1, h.2.1, h.2.2.1⟩

/-- Claim C2 (counterexample): the High Efficiency override is the absolute
setpoint 8.0 °C, not base + 1 °C — merging it into a base whose supply
setpoint is 9 °C yields 8 °C, not 10 °C. -/
theorem high_efficiency_override_counterexample :
    (applyOverrides { defaultConfig with chw_supply_setpoint := 9 }
        highEfficiencyScenario.overrides).chw_supply_setpoint = 8 ∧
    (8 : ℚ) ≠ 9 + 1 :=
  ⟨rfl, by norm_num⟩

/-- Claim C2 (amended): the four scenarios apply exactly these overrides —
Baseline none; High Efficiency sets `chw_supply_setpoint` to the fixed
absolute value 8.0 °C (which equals base + 1 °C only for the default 7.0 °C
base); Peak Load sets `load_factor` to 1.0; Hot Weather sets
`ambient_temp_base` to 40.0. -/
theorem scenario_override_effects (base : SimulationConfig) :
    applyOverrides base baselineScenario.overrides = base ∧
    applyOverrides base highEfficiencyScenario.overrides =
      { base with chw_supply_setpoint := 8 } ∧
    applyOverrides base peakLoadScenario.overrides =
      { base with load_factor := 1 } ∧
    applyOverrides base hotWeatherScenario.overrides =
      { base with ambient_temp_base := 40 } := by
  cases base
  exact ⟨rfl, rfl, rfl, rfl⟩

/-- Claim C10: `{ ...config, ...scenario.overrides }` replaces only the
override-named fields — every field whose override entry is `none` keeps its
base value. -/
theorem merge_inherits_unnamed_fields (base : SimulationConfig)
    (o : ScenarioOverrides) :
    (o.duration_hours = none →
      (applyOverrides base o).duration_hours = base.duration_hours) ∧
    (o.timestep_minutes = none →
      (applyOverrides base o).timestep_minutes = base.timestep_minutes) ∧
    (o.chw_supply_setpoint = none →
      (applyOverrides base o).chw_supply_setpoint = base.chw_supply_setpoint) ∧
    (o.chw_return_setpoint = none →
      (applyOverrides base o).chw_return_setpoint = base.chw_return_setpoint) ∧
    (o.ambient_temp_base = none →
      (applyOverrides base o).ambient_temp_base = base.ambient_temp_base) ∧
    (o.load_factor = none →
      (applyOverrides base o).load_factor = base.load_factor) ∧
    (o.include_fouling = none →
      (applyOverrides base o).include_fouling = base.include_fouling) ∧
    (o.fouling_rate = none →
      (applyOverrides base o).fouling_rate = base.fouling_rate) := by
  refine ⟨?_, ?_, ?_, ?_, ?_, ?_, ?_, ?_⟩ <;> intro h <;>
    simp [applyOverrides, h]

/-- Claim C10 (witness): the Peak Load overrides do not name the CHW supply
setpoint, so the merged config inherits it from the base. -/
theorem merge_inherits_witness :
    peakLoadScenario.overrides.chw_supply_setpoint = none ∧
    (applyOverrides defaultConfig peakLoadScenario.overrides).chw_supply_setpoint =
      defaultConfig.chw_supply_setpoint :=
  ⟨rfl,
   (merge_inherits_unnamed_fields defaultConfig peakLoadScenario.overrides).2.2.1
    rfl⟩

/-- Claim C7: clicking a scenario stores the merged config as the panel's
state, and the overrides persist — after a Peak Load click the stored
`load_factor` is 1.0, a subsequent Baseline click posts a request whose
config still has `load_factor` 1.0 and leaves it 1.0 in the state, and the
stored config is no longer the original base. -/
theorem scenario_click_mutates_config (base : SimulationConfig)
    (h : base.load_factor ≠ 1) :
    (clickScenario base peakLoadScenario).newConfig.load_factor = 1 ∧
    (clickScenario (clickScenario base peakLoadScenario).newConfig
        baselineScenario).request.config.load_factor = 1 ∧
    (clickScenario (clickScenario base peakLoadScenario).newConfig
        baselineScenario).newConfig.load_factor = 1 ∧
    (clickScenario base peakLoadScenario).newConfig ≠ base := by
  refine ⟨rfl, rfl, rfl, ?_⟩
  intro he
  exact h ((congrArg SimulationConfig.load_factor he).symm)

/-- Claim C7 (witness): from the default config (load factor 0.75), a Peak
Load click stores load factor 1.0, and the next Baseline click posts it. -/
theorem scenario_click_witness :
    defaultConfig.load_factor ≠ 1 ∧
    (clickScenario defaultConfig peakLoadScenario).newConfig.load_factor = 1 ∧
    (clickScenario (clickScenario defaultConfig peakLoadScenario).newConfig
        baselineScenario).request.config.load_factor = 1 :=
  ⟨by norm_num [defaultConfig],
   (scenario_click_mutates_config defaultConfig (by norm_num [defaultConfig])).1,
   (scenario_click_mutates_config defaultConfig (by norm_num [defaultConfig])).2.1⟩

/-- Claim C8: for every valid config the generated series has
`duration_hours * 60 / timestep_minutes` (truncated) records, and the
results panel reports that same count (its `|| duration_hours * 12` fallback
never fires, because the count is nonzero for valid configs). -/
theorem record_count_matches_duration (c : SimulationConfig)
    (hd : 1 ≤ c.duration_hours) (ht1 : 1 ≤ c.timestep_minutes)
    (ht60 : c.timestep_minutes ≤ 60) :
    recordCount c = c.duration_hours * 60 / c.timestep_minutes ∧
    displayedTotalRecords (recordCount c) c.duration_hours =
      c.duration_hours * 60 / c.timestep_minutes := by
  have hlen : recordCount c = c.duration_hours * 60 / c.timestep_minutes := by
    simp [recordCount, generateTimestamps]
  have hpos : 1 ≤ c.duration_hours * 60 / c.timestep_minutes := by
    rw [Nat.one_le_div_iff (by omega : 0 < c.timestep_minutes)]
    omega
  refine ⟨hlen, ?_⟩
  rw [hlen]
  unfold displayedTotalRecords
  rw [if_pos (by omega)]

/-- Claim C8 (witness): the default configuration — 24 h at a 5-minute
timestep — is valid, generates exactly 288 records, and the panel displays
288. -/
theorem record_count_witness :
    recordCount defaultConfig = 288 ∧
    displayedTotalRecords (recordCount defaultConfig)
      defaultConfig.duration_hours = 288 := by
  have h := record_count_matches_duration defaultConfig (by decide) (by decide)
    (by decide)
  exact ⟨h.1.trans (by decide), h.2.trans (by decide)⟩

/-- Claim C9 (counterexample): the visible generation pipeline is not a
function of its explicit inputs alone — two evaluations of
`predicted_efficiency` over the same record (plant kW/TR 0.8) differ when
the ambient `Math.random` draws differ. -/
theorem predicted_efficiency_counterexample :
    predicted_efficiency 0.8 0 ≠ predicted_efficiency 0.8 (1/2) := by
  norm_num [predicted_efficiency]

/-- Claim C9 (amended): no seed exists in the pipeline visible in the
frontend — `SimulationConfig` carries no seed field and the chart's
predicted efficiency multiplies by an ambient unseeded `Math.random` draw;
two evaluations over the same record coincide exactly when the ambient
draws coincide (for a nonzero plant kW/TR). -/
theorem predicted_efficiency_deterministic_iff_same_draw
    (pkt r1 r2 : ℚ) (h : pkt ≠ 0) :
    predicted_efficiency pkt r1 = predicted_efficiency pkt r2 ↔ r1 = r2 := by
  unfold predicted_efficiency
  constructor
  · intro he
    have h2 := mul_left_cancel₀ h he
    have h3 : r1 * 0.1 = r2 * 0.1 := by linarith
    exact mul_right_cancel₀ (by norm_num) h3
  · intro he
    rw [he]

/-- Claim C9 (witness): the amended equivalence at a concrete record and
draw. -/
theorem predicted_efficiency_witness :
    (0.8 : ℚ) ≠ 0 ∧
    (predicted_efficiency 0.8 (1/4) = predicted_efficiency 0.8 (1/4) ↔
      (1/4 : ℚ) = 1/4) :=
  ⟨by norm_num,
   predicted_efficiency_deterministic_iff_same_draw 0.8 (1/4) (1/4) (by norm_num)⟩
